import Mathlib

/-!
Shallow embedding of the hospice ADT^A01 integration pipeline
(`hl7_parser.py`, `adt_logic.py`, `fhir_converter.py`, `airbyte_integration.py`)
together with theorems settling the frozen claims about its specification.

Python strings are modelled as Lean `String` (a wrapper around `List Char`);
the Python string primitives the code uses (`split`, `replace`, `strip`,
`upper`, slicing, truthiness) are defined below as structurally recursive
functions over `List Char` so that every definition is executable and
kernel-reducible.  Python dictionaries are modelled as functions
`String → Option PyVal` (absent key ↦ `none`); Python exceptions are
modelled with `Except String`.
-/

namespace Hospice

/-- Model of a Python value as stored in the pipeline dictionaries
(strings, ints and booleans are the only value shapes the pipeline stores). -/
inductive PyVal where
  | str : String → PyVal
  | int : Int → PyVal
  | bool : Bool → PyVal
deriving DecidableEq

/-- Python truthiness of a `PyVal` (empty string, zero and `False` are falsy). -/
def PyVal.truthy : PyVal → Bool
  | PyVal.str s => s != ""
  | PyVal.int n => n != 0
  | PyVal.bool b => b

/-- Python truthiness of a `dict.get` result (`None`, i.e. an absent key, is falsy). -/
def truthyO : Option PyVal → Bool
  | none => false
  | some v => v.truthy

/-- Whitespace as stripped by Python `str.strip()` with no argument
(modelled with `Char.isWhitespace`, which covers the space, tab, CR and LF
characters appearing in HL7 traffic). -/
def wsChar (c : Char) : Bool := c.isWhitespace

/-- Python `str.split(sep)` for a one-character separator `sep`:
`splitChar sep l` cuts `l` at every occurrence of `sep`, keeping empty parts
(`"" ↦ [""]`, `"a|" ↦ ["a", ""]`). -/
def splitChar (sep : Char) : List Char → List (List Char)
  | [] => [[]]
  | c :: rest =>
    if c = sep then [] :: splitChar sep rest
    else
      match splitChar sep rest with
      | [] => [[c]]
      | p :: ps => (c :: p) :: ps

/-- Python `str.replace("\r\n", "\r")`: left-to-right, non-overlapping. -/
def replaceCRLFwithCR : List Char → List Char
  | [] => []
  | [c] => [c]
  | c1 :: c2 :: rest =>
    if c1 = '\r' ∧ c2 = '\n' then '\r' :: replaceCRLFwithCR rest
    else c1 :: replaceCRLFwithCR (c2 :: rest)

/-- Python `str.replace(a, b)` for one-character `a` and `b`. -/
def replaceChar (a b : Char) (l : List Char) : List Char :=
  l.map (fun c => if c = a then b else c)

/-- Python `str.strip()` on the character list: drop whitespace from both ends. -/
def pyStripList (l : List Char) : List Char :=
  ((l.dropWhile wsChar).reverse.dropWhile wsChar).reverse

/-- Python `str.strip()`. -/
def pyStrip (s : String) : String := String.mk (pyStripList s.data)

/-- Python `len(s)` (number of characters). -/
def pyLen (s : String) : Nat := s.data.length

/-- Python slice `s[a:b]` for `0 ≤ a ≤ b` (clamped at the string end, like Python). -/
def pySlice (s : String) (a b : Nat) : String :=
  String.mk ((s.data.drop a).take (b - a))

/-- Python `str.upper()` (ASCII case mapping; the pipeline only upper-cases
HL7 gender codes, which are ASCII). -/
def pyUpper (s : String) : String := String.mk (s.data.map Char.toUpper)

/-- Python `s.split(sep)` for a one-character separator, on `String`. -/
def pySplit (s : String) (sep : Char) : List String :=
  (splitChar sep s.data).map String.mk

/-- Python `sep.join(parts)`. -/
def pyJoin (sep : String) : List String → String
  | [] => ""
  | [p] => p
  | p :: rest => p ++ sep ++ pyJoin sep rest

/-- Python `x or d` for strings: `d` when `x` is empty (falsy), else `x`. -/
def pyOr (x d : String) : String := if x = "" then d else x

/-- Value of a string of decimal digits. -/
def digitsToNat (s : String) : Nat :=
  s.data.foldl (fun a c => a * 10 + (c.toNat - 48)) 0

/-- Test that every character of the string is a decimal digit. -/
def allDigits (s : String) : Bool := s.data.all Char.isDigit

/-- Leap-year test of the proleptic Gregorian calendar used by Python `datetime`. -/
def isLeapYear (y : Nat) : Bool :=
  (y % 4 = 0 && y % 100 != 0) || y % 400 = 0

/-- Number of days of month `m` in year `y`, as validated by Python `datetime`. -/
def daysInMonth (y m : Nat) : Nat :=
  if m = 2 then (if isLeapYear y then 29 else 28)
  else if m = 4 ∨ m = 6 ∨ m = 9 ∨ m = 11 then 30
  else 31

/-- Success condition of Python `datetime.strptime(s, "%Y%m%d")` on an
8-character slice: eight digits forming a calendar-valid date with year ≥ 1
(Python `datetime` rejects year 0; four digits cannot exceed `MAXYEAR` 9999). -/
def strptimeDate8Ok (s : String) : Bool :=
  if pyLen s = 8 ∧ allDigits s = true then
    let y := digitsToNat (pySlice s 0 4)
    let m := digitsToNat (pySlice s 4 6)
    let d := digitsToNat (pySlice s 6 8)
    if 1 ≤ y ∧ 1 ≤ m ∧ m ≤ 12 ∧ 1 ≤ d ∧ d ≤ daysInMonth y m then true else false
  else false

/-- Success condition of Python `datetime.strptime(s, "%Y%m%d%H%M%S")` on a
14-character slice: fourteen digits, calendar-valid date, hour ≤ 23,
minute ≤ 59 and second ≤ 59 (the `datetime` constructor rejects leap seconds). -/
def strptimeDateTime14Ok (s : String) : Bool :=
  if pyLen s = 14 ∧ allDigits s = true then
    let y := digitsToNat (pySlice s 0 4)
    let m := digitsToNat (pySlice s 4 6)
    let d := digitsToNat (pySlice s 6 8)
    let hh := digitsToNat (pySlice s 8 10)
    let mm := digitsToNat (pySlice s 10 12)
    let ss := digitsToNat (pySlice s 12 14)
    if 1 ≤ y ∧ 1 ≤ m ∧ m ≤ 12 ∧ 1 ≤ d ∧ d ≤ daysInMonth y m
        ∧ hh ≤ 23 ∧ mm ≤ 59 ∧ ss ≤ 59 then true else false
  else false

/-- `datetime.isoformat()` of a value parsed from fourteen digits: the digit
groups are already zero-padded, so the ISO text is a resegmentation of them. -/
def isoOfDigits14 (s : String) : String :=
  pySlice s 0 4 ++ "-" ++ pySlice s 4 6 ++ "-" ++ pySlice s 6 8 ++ "T" ++
    pySlice s 8 10 ++ ":" ++ pySlice s 10 12 ++ ":" ++ pySlice s 12 14

/-- `datetime.strftime("%Y-%m-%d")` of a value parsed from eight digits. -/
def dateOfDigits8 (s : String) : String :=
  pySlice s 0 4 ++ "-" ++ pySlice s 4 6 ++ "-" ++ pySlice s 6 8

/-! Embedding of `hl7_parser.py`. -/

/-- Line-ending normalization of `parse_adt_a01`:
`raw.replace("\r\n", "\r").replace("\n", "\r").strip()`. -/
def normalizeMessage (raw : String) : String :=
  pyStrip (String.mk (replaceChar '\n' '\r' (replaceCRLFwithCR raw.data)))

/-- Modelled from the spec: the segment tokenizer of the external `python-hl7`
library (`hl7.parse`), which is not part of this repository.  Per spec section
4.1 steps 1-2 and section 3, the normalized message is split on `"\r"` into
segments, empty lines are skipped, and each segment is split on the `"|"`
field separator into its ordered field list (`segment[0]` is the type code);
`str(segment[i])` returns the raw field text. -/
def tokenize (msg : String) : List (List String) :=
  (((splitChar '\r' msg.data).filter (fun l => !l.isEmpty)).map
    (fun l => (splitChar '|' l).map String.mk))

/-- Embedding of `_find_segment`: first segment whose field 0 is the given id. -/
def _find_segment (message : List (List String)) (segmentId : String) : Option (List String) :=
  message.find? (fun seg =>
    match seg with
    | [] => false
    | f0 :: _ => f0 == segmentId)

/-- Embedding of `_get_field`: field `index` of the segment, stripped, or `""`
when the segment is `None` or has at most `index` fields. -/
def _get_field (segment : Option (List String)) (index : Nat) : String :=
  match segment with
  | none => ""
  | some fields =>
    match fields.get? index with
    | some f => pyStrip f
    | none => ""

/-- Embedding of `_extract_patient_id`: component 0 of PID-3. -/
def _extract_patient_id (pid : List String) : String :=
  let raw := _get_field (some pid) 3
  if raw = "" then ""
  else
    match pySplit raw '^' with
    | [] => pyStrip raw
    | p :: _ => pyStrip p

/-- Embedding of `_extract_patient_name`: components 0 and 1 of PID-5. -/
def _extract_patient_name (pid : List String) : String × String :=
  let raw := _get_field (some pid) 5
  if raw = "" then ("", "")
  else
    let parts := pySplit raw '^'
    (pyStrip ((parts.get? 0).getD ""), pyStrip ((parts.get? 1).getD ""))

/-- Embedding of `_extract_address`: components 0, 2, 3, 4 of PID-11, the
non-empty ones joined with `", "`. -/
def _extract_address (pid : List String) : String :=
  let raw := _get_field (some pid) 11
  if raw = "" then ""
  else
    let parts := pySplit raw '^'
    let street := pyStrip ((parts.get? 0).getD "")
    let city := pyStrip ((parts.get? 2).getD "")
    let state := pyStrip ((parts.get? 3).getD "")
    let zipCode := pyStrip ((parts.get? 4).getD "")
    pyJoin ", " (([street, city, state, zipCode]).filter (fun c => c != ""))

/-- Embedding of `_format_hl7_datetime`: best-effort ISO-8601 reformatting.
When the text has ≥ 14 characters only the 14-character `%Y%m%d%H%M%S` parse
is attempted (its `ValueError` is caught and the raw text returned); the
8-character `%Y%m%d` parse is attempted only for texts of length 8 to 13. -/
def _format_hl7_datetime (t : String) : String :=
  if t = "" ∨ pyLen t < 8 then t
  else if 14 ≤ pyLen t then
    if strptimeDateTime14Ok (pySlice t 0 14) = true then isoOfDigits14 (pySlice t 0 14) else t
  else
    if strptimeDate8Ok (pySlice t 0 8) = true then dateOfDigits8 (pySlice t 0 8) else t

/-- Parser output record, the `result` dict of `parse_adt_a01` (fixed keys,
all string-valued). -/
structure ParsedAdmission where
  patient_id : String
  family_name : String
  given_name : String
  dob : String
  gender : String
  address : String
  phone : String
  admit_datetime : String
  primary_diagnosis : String
  message_type : String
  raw_hl7 : String
deriving DecidableEq

/-- The `admit_datetime_raw` local of `parse_adt_a01`: PV1-44 preferred, else
PV1-2, and `""` when the message has no PV1 segment. -/
def pv1AdmitRaw (message : List (List String)) : String :=
  match _find_segment message "PV1" with
  | none => ""
  | some seg => pyOr (_get_field (some seg) 44) (_get_field (some seg) 2)

/-- Field extraction and default substitution of `parse_adt_a01` once the
required segments were found (`raw` is the original input, `message` the
tokenized normalized message, `pid` the first PID segment). -/
def buildParsed (raw : String) (message : List (List String)) (pid : List String) :
    ParsedAdmission :=
  let patient_id := _extract_patient_id pid
  let famGiven := _extract_patient_name pid
  let dob := _get_field (some pid) 7
  let gender := pyUpper (pyOr (_get_field (some pid) 8) "")
  let address := _extract_address pid
  let phone := _get_field (some pid) 13
  let admit_datetime := _format_hl7_datetime (pv1AdmitRaw message)
  let dg1 := _find_segment message "DG1"
  let primary_diagnosis :=
    match dg1 with
    | none => ""
    | some seg => _get_field (some seg) 3
  { patient_id := pyOr patient_id "UNKNOWN"
    family_name := pyOr famGiven.1 "Unknown"
    given_name := pyOr famGiven.2 "Unknown"
    dob := pyOr dob ""
    gender := pyOr gender ""
    address := pyOr address ""
    phone := pyOr phone ""
    admit_datetime := pyOr admit_datetime ""
    primary_diagnosis := pyOr primary_diagnosis ""
    message_type := "A01"
    raw_hl7 := raw }

/-- Embedding of `parse_adt_a01`.  The Python function raises `ValueError`
(the `ParseError` of the spec) with a wrapping message; failure is modelled
with `Except.error`.  The MSH-9 message-type check of the source only logs a
warning and does not influence the result, so it has no effect here either. -/
def parse_adt_a01 (raw : String) : Except String ParsedAdmission :=
  if raw = "" ∨ pyStrip raw = "" then
    Except.error "Failed to parse HL7 message: Empty HL7 message"
  else if tokenize (normalizeMessage raw) = [] then
    Except.error "Failed to parse HL7 message: Parsed HL7 message is empty"
  else
    match _find_segment (tokenize (normalizeMessage raw)) "MSH" with
    | none => Except.error "Failed to parse HL7 message: MSH segment not found"
    | some _ =>
      match _find_segment (tokenize (normalizeMessage raw)) "PID" with
      | none => Except.error "Failed to parse HL7 message: PID segment not found"
      | some pid => Except.ok (buildParsed raw (tokenize (normalizeMessage raw)) pid)

/-- View of the parser result as the Python dict it is
(`parse_adt_a01` returns a dict with these eleven keys). -/
def ParsedAdmission.toDict (r : ParsedAdmission) : String → Option PyVal := fun k =>
  if k = "patient_id" then some (PyVal.str r.patient_id)
  else if k = "family_name" then some (PyVal.str r.family_name)
  else if k = "given_name" then some (PyVal.str r.given_name)
  else if k = "dob" then some (PyVal.str r.dob)
  else if k = "gender" then some (PyVal.str r.gender)
  else if k = "address" then some (PyVal.str r.address)
  else if k = "phone" then some (PyVal.str r.phone)
  else if k = "admit_datetime" then some (PyVal.str r.admit_datetime)
  else if k = "primary_diagnosis" then some (PyVal.str r.primary_diagnosis)
  else if k = "message_type" then some (PyVal.str r.message_type)
  else if k = "raw_hl7" then some (PyVal.str r.raw_hl7)
  else none

/-! Embedding of `adt_logic.py`.  The process environment is modelled as an
explicit function `String → Option String` (`os.getenv`), and the single
`datetime.now(timezone.utc).isoformat()` capture is modelled as an explicit
`now : String` parameter — the source captures it exactly once per call. -/

/-- Model of Python `int(s)` for `str` input: optional surrounding whitespace,
optional sign, then decimal digits with optional single underscores between
digit groups; `none` when `int` would raise. -/
def pyIntOfString (s : String) : Option Int :=
  let t := (pyStrip s).data
  let signDigits : Bool × List Char :=
    match t with
    | '-' :: rest => (true, rest)
    | '+' :: rest => (false, rest)
    | other => (false, other)
  let ds := signDigits.2
  if ds = [] then none
  else if (splitChar '_' ds).all (fun g => !g.isEmpty && g.all Char.isDigit) then
    let n := digitsToNat (String.mk (ds.filter (fun c => c != '_')))
    some (if signDigits.1 then -(n : Int) else (n : Int))
  else none

/-- Embedding of `_get_env_int` of `adt_logic.py`: the integer value of the
environment variable, or `default` when it is unset, empty or not an integer. -/
def _get_env_int (env : String → Option String) (name : String) (default : Int) : Int :=
  match env name with
  | none => default
  | some raw =>
    if raw = "" then default
    else
      match pyIntOfString raw with
      | some n => n
      | none => default

/-- Truthiness of the resolved patient identifier of `process_admit_logic`:
`parsed.get("mrn") or parsed.get("patient_id") or parsed.get("patient_identifier")`
followed by `if not mrn`. -/
def identifierTruthy (parsed : String → Option PyVal) : Bool :=
  truthyO (parsed "mrn") || truthyO (parsed "patient_id") || truthyO (parsed "patient_identifier")

/-- The admission dict built by `process_admit_logic`:
`{**parsed_hl7, ...fixed and derived workflow fields...}` — every input key is
kept and exactly the thirteen listed workflow keys are overridden. -/
def admitUpdate (env : String → Option String) (now : String)
    (parsed : String → Option PyVal) : String → Option PyVal :=
  let ev := _get_env_int env "HOSPICE_EOB_EVENT" 210
  let st := _get_env_int env "HOSPICE_EOB_STAGE" 2029
  let socRocType :=
    match parsed "soc_roc_type" with
    | some v => if v.truthy then v else PyVal.str "UNKNOWN"
    | none => PyVal.str "UNKNOWN"
  let acuity :=
    match parsed "acuity_level" with
    | some v => if v.truthy then v else PyVal.str "UNKNOWN"
    | none => PyVal.str "UNKNOWN"
  fun k =>
    if k = "episode_status" then some (PyVal.str "CURRENT")
    else if k = "episode_previous_status" then some (PyVal.str "PENDING")
    else if k = "hospice_eob_event" then some (PyVal.int ev)
    else if k = "hospice_eob_stage" then some (PyVal.int st)
    else if k = "hospice_eob_workflow_verified" then some (PyVal.bool true)
    else if k = "soc_roc_type" then some socRocType
    else if k = "soc_roc_completed" then some (PyVal.bool true)
    else if k = "soc_roc_completion_timestamp" then some (PyVal.str now)
    else if k = "eob_closed_workflow" then some (PyVal.bool true)
    else if k = "workflow_closed_timestamp" then some (PyVal.str now)
    else if k = "admit_event_timestamp" then some (PyVal.str now)
    else if k = "admission_status" then some (PyVal.str "ACTIVE")
    else if k = "acuity_level" then some acuity
    else parsed k

/-- Embedding of `process_admit_logic`.  The input is a dict (the
`isinstance(parsed_hl7, dict)` guard holds by typing); the `ValidationError`
(`ValueError`) for a missing patient identifier is modelled with
`Except.error`. -/
def process_admit_logic (env : String → Option String) (now : String)
    (parsed : String → Option PyVal) : Except String (String → Option PyVal) :=
  if identifierTruthy parsed then Except.ok (admitUpdate env now parsed)
  else Except.error
    "Missing required patient identifier (expected one of: mrn, patient_id, patient_identifier)"

/-! Embedding of `fhir_converter.py`.  The `fhir.resources` model classes are
external to the repository; per spec section 4.3 the conversion is a pure
shape construction with defensive defaults, so the `Patient` object is
modelled as a plain record of the fields the function assigns
(`patient.json()` with nulls omitted is the identity on this shape). -/

structure FhirIdentifier where
  system : String
  value : PyVal
deriving DecidableEq

structure FhirHumanName where
  family : PyVal
  given : List PyVal
  useCode : String
deriving DecidableEq

structure FhirAddress where
  text : PyVal
  useCode : String
deriving DecidableEq

structure FhirContactPoint where
  system : String
  value : PyVal
  useCode : String
deriving DecidableEq

/-- One entry of the fixed `patient.extension` list; `value` is `none` when
the source dict lacks the copied key (`dict.get` with no default). -/
structure FhirExtensionEntry where
  url : String
  value : Option PyVal
deriving DecidableEq

structure FhirPatient where
  identifier : List FhirIdentifier
  name : List FhirHumanName
  gender : String
  birthDate : Option String
  address : Option FhirAddress
  telecom : Option FhirContactPoint
  active : Bool
  extension : List FhirExtensionEntry
deriving DecidableEq

/-- The fixed MRN identifier system URL of `convert_to_fhir_patient`. -/
def mrnSystemUrl : String := "http://hospital.org/mrn"

/-- Record assembly of `convert_to_fhir_patient` once gender and dob were read
as strings (all remaining steps are total). -/
def buildFhirPatient (admission : String → Option PyVal) (gender : String)
    (birthDate : Option String) : FhirPatient :=
  { identifier := [{ system := mrnSystemUrl
                     value := (admission "patient_id").getD (PyVal.str "UNKNOWN") }]
    name := [{ family := (admission "family_name").getD (PyVal.str "Unknown")
               given := [(admission "given_name").getD (PyVal.str "Unknown")]
               useCode := "official" }]
    gender := gender
    birthDate := birthDate
    address :=
      match admission "address" with
      | some v => if v.truthy then some { text := v, useCode := "home" } else none
      | none => none
    telecom :=
      match admission "phone" with
      | some v => if v.truthy then some { system := "phone", value := v, useCode := "home" } else none
      | none => none
    active := true
    extension :=
      [{ url := "http://hospice.example.org/StructureDefinition/episode-status"
         value := some ((admission "episode_status").getD (PyVal.str "CURRENT")) },
       { url := "http://hospice.example.org/StructureDefinition/soc-roc-completed"
         value := some ((admission "soc_roc_completed").getD (PyVal.bool false)) },
       { url := "http://hospice.example.org/StructureDefinition/eob-workflow-closed"
         value := some ((admission "eob_closed_workflow").getD (PyVal.bool false)) },
       { url := "http://hospice.example.org/StructureDefinition/admit-timestamp"
         value := admission "admit_event_timestamp" }] }

/-- Embedding of `convert_to_fhir_patient`.  `admission_info.get(key, default)`
substitutes the default only when the key is absent; a present empty string is
used as stored.  `.upper()` on a non-string gender and `len()` on a truthy
non-string dob would raise in Python and are modelled with `Except.error`. -/
def convert_to_fhir_patient (admission : String → Option PyVal) :
    Except String FhirPatient :=
  match (admission "gender").getD (PyVal.str "") with
  | PyVal.str g =>
    let genderCode := pyUpper g
    let gender :=
      if genderCode = "M" then "male"
      else if genderCode = "F" then "female"
      else "unknown"
    match (admission "dob").getD (PyVal.str "") with
    | PyVal.str dob =>
      let birthDate : Option String :=
        if dob = "" then none
        else if 8 ≤ pyLen dob then
          some (pySlice dob 0 4 ++ "-" ++ pySlice dob 4 6 ++ "-" ++ pySlice dob 6 8)
        else some dob
      Except.ok (buildFhirPatient admission gender birthDate)
    | v =>
      if v.truthy then Except.error "TypeError: object of this type has no len()"
      else Except.ok (buildFhirPatient admission gender none)
  | _ => Except.error "AttributeError: object has no attribute upper"

/-! Embedding of `airbyte_integration.py`.  The JSON dict passed to the
gateway is modelled with `JVal`; the `time.sleep` simulated send is a pure
no-op that cannot raise. -/

/-- Model of a JSON value (the FHIR Patient dict produced by `json.loads`). -/
inductive JVal where
  | str : String → JVal
  | int : Int → JVal
  | bool : Bool → JVal
  | null : JVal
  | arr : List JVal → JVal
  | obj : List (String × JVal) → JVal

/-- Python truthiness of a JSON value. -/
def jTruthy : JVal → Bool
  | JVal.str s => s != ""
  | JVal.int n => n != 0
  | JVal.bool b => b
  | JVal.null => false
  | JVal.arr xs => !xs.isEmpty
  | JVal.obj kvs => !kvs.isEmpty

/-- `dict.get` on a JSON object (keys of a JSON object are unique). -/
def jGet (kvs : List (String × JVal)) (k : String) : Option JVal :=
  (kvs.find? (fun kv => kv.1 == k)).map (fun kv => kv.2)

/-- Python `str()` of a JSON value, as used by `_extract_mrn`.  Scalar cases
match Python exactly; Python would render a container via its repr, which no
caller of this model observes (post-validation identifier values are scalars),
so containers are rendered with a simplified placeholder. -/
def pyStrOfJVal : JVal → String
  | JVal.str s => s
  | JVal.int n => toString n
  | JVal.bool b => if b then "True" else "False"
  | JVal.null => "None"
  | JVal.arr _ => "[...]"
  | JVal.obj _ => "\x7b...\x7d"

/-- Embedding of `_validate_fhir_patient_resource`: input must be a dict with
`resourceType == "Patient"`, a non-empty `identifier` list whose first element
is a dict with a truthy `value`; on success the dict is returned.  The Python
error strings quote the word Patient; the quotes are dropped here. -/
def _validate_fhir_patient_resource (j : JVal) : Except String (List (String × JVal)) :=
  match j with
  | JVal.obj kvs =>
    match jGet kvs "resourceType" with
    | some (JVal.str rt) =>
      if rt = "Patient" then
        match jGet kvs "identifier" with
        | some (JVal.arr ids) =>
          match ids with
          | [] => Except.error "FHIR Patient.identifier must exist and not be empty"
          | first :: _ =>
            match first with
            | JVal.obj fkvs =>
              match jGet fkvs "value" with
              | some v =>
                if jTruthy v then Except.ok kvs
                else Except.error "FHIR Patient.identifier[0].value must exist and not be empty"
              | none => Except.error "FHIR Patient.identifier[0].value must exist and not be empty"
            | _ => Except.error "FHIR Patient.identifier[0].value must exist and not be empty"
        | _ => Except.error "FHIR Patient.identifier must exist and not be empty"
      else Except.error "FHIR Patient resourceType must be Patient"
    | _ => Except.error "FHIR Patient resourceType must be Patient"
  | _ => Except.error "FHIR Patient resource must be a dict"

/-- Search loop of `_extract_mrn` over the identifier list: first dict entry
with a truthy `value`. -/
def _extract_mrn_loop : List JVal → String
  | [] => "UNKNOWN"
  | JVal.obj fkvs :: rest =>
    match jGet fkvs "value" with
    | some v => if jTruthy v then pyStrOfJVal v else _extract_mrn_loop rest
    | none => _extract_mrn_loop rest
  | _ :: rest => _extract_mrn_loop rest

/-- Embedding of `_extract_mrn` (only called on validated dicts, where
`identifier` is a non-empty list). -/
def _extract_mrn (kvs : List (String × JVal)) : String :=
  match jGet kvs "identifier" with
  | some (JVal.arr ids) => _extract_mrn_loop ids
  | _ => "UNKNOWN"

/-- Embedding of `_env_bool` of `airbyte_integration.py`. -/
def _env_bool (env : String → Option String) (name : String) (default : Bool) : Bool :=
  match env name with
  | none => default
  | some raw =>
    if raw = "" then default
    else (["1", "true", "t", "yes", "y", "on"]).contains
      (String.mk ((pyStrip raw).data.map Char.toLower))

/-- Embedding of `_env_int` of `airbyte_integration.py` (same body as
`_get_env_int` of `adt_logic.py`). -/
def _env_int (env : String → Option String) (name : String) (default : Int) : Int :=
  match env name with
  | none => default
  | some raw =>
    if raw = "" then default
    else
      match pyIntOfString raw with
      | some n => n
      | none => default

/-- The tri-state outcome dict returned by `airbyte_send_fhir_patient`. -/
structure AirbyteOutcome where
  status : String
  mrn : String
  stream : String
  attempts : Nat
  errorText : Option String
deriving DecidableEq

/-- The stream-name resolution of `airbyte_send_fhir_patient`:
`os.getenv("AIRBYTE_STREAM_NAME") or "fhir_patients"`. -/
def airbyteStream (env : String → Option String) : String :=
  match env "AIRBYTE_STREAM_NAME" with
  | none => "fhir_patients"
  | some s => if s = "" then "fhir_patients" else s

/-- Embedding of `airbyte_send_fhir_patient`.  Validation errors propagate as
raised `ValueError`s (`Except.error`); otherwise the outcome is `skipped`
with zero attempts when delivery is disabled, and `success` on the first
attempt when enabled, since the simulated send (a bounded `time.sleep`)
cannot raise and `max(1, retries)` guarantees at least one iteration. -/
def airbyte_send_fhir_patient (env : String → Option String) (j : JVal) :
    Except String AirbyteOutcome :=
  let enabled := _env_bool env "AIRBYTE_ENABLED" true
  let stream := airbyteStream env
  let _maxRetries : Int := max 1 (_env_int env "AIRBYTE_MAX_RETRIES" 3)
  let _timeoutS : Int := max 1 (_env_int env "AIRBYTE_TIMEOUT" 5)
  match _validate_fhir_patient_resource j with
  | Except.error e => Except.error e
  | Except.ok kvs =>
    let mrn := _extract_mrn kvs
    if enabled = false then
      Except.ok { status := "skipped", mrn := mrn, stream := stream, attempts := 0, errorText := none }
    else
      Except.ok { status := "success", mrn := mrn, stream := stream, attempts := 1, errorText := none }

/-! Concrete inputs used by the claim theorems. -/

/-- Empty process environment: every configuration variable unset (defaults apply). -/
def noEnv : String → Option String := fun _ => none

/-- An arbitrary fixed UTC ISO-8601 clock instant injected into the transform. -/
def sampleNow : String := "2026-10-12T00:00:00+00:00"

/-- The sample ADT^A01 message of spec section 8, segments joined with CR. -/
def sampleMessage : String :=
  "MSH|^~\\&|AccMgr|1|||20050110045504||ADT^A01|599102|P|2.3|||" ++ "\r" ++
  "PID|1||10006579^^^1^MRN^1||DUCK^DONALD^D||19241010|M||1|111 DUCK ST^^FOWL^CA^999990000^^M|1|8885551212|8885551212|..." ++ "\r" ++
  "PV1|1|I|PREOP^101^1^1^^^S|..." ++ "\r" ++
  "DG1|1|I9|71596^OSTEOARTHROS NOS-L/LEG ^I9|..."

/-- The record `parse_adt_a01` produces for `sampleMessage`. -/
def sampleParsed : ParsedAdmission :=
  { patient_id := "10006579"
    family_name := "DUCK"
    given_name := "DONALD"
    dob := "19241010"
    gender := "M"
    address := "111 DUCK ST, FOWL, CA, 999990000"
    phone := "8885551212"
    admit_datetime := "I"
    primary_diagnosis := "71596^OSTEOARTHROS NOS-L/LEG ^I9"
    message_type := "A01"
    raw_hl7 := sampleMessage }

/-- The FHIR Patient `convert_to_fhir_patient` produces for `sampleParsed`. -/
def sampleFhir : FhirPatient :=
  { identifier := [{ system := mrnSystemUrl, value := PyVal.str "10006579" }]
    name := [{ family := PyVal.str "DUCK", given := [PyVal.str "DONALD"], useCode := "official" }]
    gender := "male"
    birthDate := some "1924-10-10"
    address := some { text := PyVal.str "111 DUCK ST, FOWL, CA, 999990000", useCode := "home" }
    telecom := some { system := "phone", value := PyVal.str "8885551212", useCode := "home" }
    active := true
    extension :=
      [{ url := "http://hospice.example.org/StructureDefinition/episode-status"
         value := some (PyVal.str "CURRENT") },
       { url := "http://hospice.example.org/StructureDefinition/soc-roc-completed"
         value := some (PyVal.bool false) },
       { url := "http://hospice.example.org/StructureDefinition/eob-workflow-closed"
         value := some (PyVal.bool false) },
       { url := "http://hospice.example.org/StructureDefinition/admit-timestamp"
         value := none }] }

/-- C1: on the sample ADT^A01 message of spec section 8, the parser extracts
exactly the demographic fields the spec lists; the admit transform (default
configuration) yields episode_status CURRENT and hospice_eob_event 210; and
the FHIR conversion of the parsed record yields gender male, birthDate
1924-10-10 and identifier[0].value 10006579. -/
theorem claim_C1_sample_end_to_end :
    parse_adt_a01 sampleMessage = Except.ok sampleParsed
    ∧ sampleParsed.patient_id = "10006579"
    ∧ sampleParsed.family_name = "DUCK"
    ∧ sampleParsed.given_name = "DONALD"
    ∧ sampleParsed.dob = "19241010"
    ∧ sampleParsed.gender = "M"
    ∧ sampleParsed.address = "111 DUCK ST, FOWL, CA, 999990000"
    ∧ sampleParsed.phone = "8885551212"
    ∧ process_admit_logic noEnv sampleNow sampleParsed.toDict
        = Except.ok (admitUpdate noEnv sampleNow sampleParsed.toDict)
    ∧ admitUpdate noEnv sampleNow sampleParsed.toDict "episode_status"
        = some (PyVal.str "CURRENT")
    ∧ admitUpdate noEnv sampleNow sampleParsed.toDict "hospice_eob_event"
        = some (PyVal.int 210)
    ∧ convert_to_fhir_patient sampleParsed.toDict = Except.ok sampleFhir
    ∧ sampleFhir.gender = "male"
    ∧ sampleFhir.birthDate = some "1924-10-10"
    ∧ sampleFhir.identifier = [{ system := mrnSystemUrl, value := PyVal.str "10006579" }] :=
  ⟨by rfl, rfl, rfl, rfl, rfl, rfl, rfl, rfl, by rfl, by rfl, by rfl, by rfl, rfl, rfl, rfl⟩

/-! Supporting lemmas. -/

/-- `pyOr` with an empty default is the identity. -/
theorem pyOr_empty_right (x : String) : pyOr x "" = x := by
  unfold pyOr
  split
  · rename_i h
    exact h.symm
  · rfl

/-- `pyOr` with a non-empty default never yields the empty string. -/
theorem pyOr_ne_empty (x d : String) (hd : d ≠ "") : pyOr x d ≠ "" := by
  unfold pyOr
  split
  · exact hd
  · assumption

/-- Accessing a field index at or beyond the segment length yields `""`. -/
theorem get_field_out_of_range (fields : List String) (i : Nat)
    (h : fields.length ≤ i) : _get_field (some fields) i = "" := by
  simp only [_get_field]
  rw [List.get?_eq_none.mpr h]

/-- The best-effort datetime formatting, written as the explicit length-driven
case analysis the code performs. -/
theorem format_hl7_datetime_cases (t : String) :
    pyOr (_format_hl7_datetime t) "" =
      (if 14 ≤ pyLen t then
        (if strptimeDateTime14Ok (pySlice t 0 14) = true then isoOfDigits14 (pySlice t 0 14) else t)
      else if 8 ≤ pyLen t then
        (if strptimeDate8Ok (pySlice t 0 8) = true then dateOfDigits8 (pySlice t 0 8) else t)
      else t) := by
  rw [pyOr_empty_right]
  unfold _format_hl7_datetime
  by_cases h14 : 14 ≤ pyLen t
  · have hne : ¬(t = "" ∨ pyLen t < 8) := by
      rintro (rfl | hlt)
      · revert h14
        decide
      · omega
    rw [if_neg hne, if_pos h14, if_pos h14]
  · by_cases h8 : 8 ≤ pyLen t
    · have hne : ¬(t = "" ∨ pyLen t < 8) := by
        rintro (rfl | hlt)
        · revert h8
          decide
        · omega
      rw [if_neg hne, if_neg h14, if_neg h14, if_pos h8]
    · have hlt : pyLen t < 8 := by omega
      rw [if_pos (Or.inr hlt), if_neg h14, if_neg h8]

/-- C4: every successful parse yields `message_type = "A01"` and `raw_hl7`
equal to the original input string verbatim. -/
theorem claim_C4_parse_invariants :
    ∀ (raw : String) (r : ParsedAdmission), parse_adt_a01 raw = Except.ok r →
      r.message_type = "A01" ∧ r.raw_hl7 = raw := by
  intro raw r h
  unfold parse_adt_a01 at h
  split at h
  · simp at h
  · split at h
    · simp at h
    · split at h
      · simp at h
      · split at h
        · simp at h
        · simp only [Except.ok.injEq] at h
          subst h
          exact ⟨rfl, rfl⟩

/-- C4 witness: the invariants at the concrete sample message. -/
theorem claim_C4_witness :
    sampleParsed.message_type = "A01" ∧ sampleParsed.raw_hl7 = sampleMessage :=
  claim_C4_parse_invariants sampleMessage sampleParsed (by rfl)

/-- C3: field access is total and zero-padded — extracting field `i` from a
segment with at most `i` fields yields `""` — and consequently a parsed
message whose first PID segment has fewer than 12 fields has `address = ""`. -/
theorem claim_C3_field_access_total :
    (∀ (fields : List String) (i : Nat), fields.length ≤ i → _get_field (some fields) i = "")
    ∧ (∀ (raw : String) (r : ParsedAdmission) (seg : List String),
        parse_adt_a01 raw = Except.ok r →
        _find_segment (tokenize (normalizeMessage raw)) "PID" = some seg →
        seg.length < 12 → r.address = "") := by
  refine ⟨get_field_out_of_range, ?_⟩
  intro raw r seg h hfind hlen
  unfold parse_adt_a01 at h
  split at h
  · simp at h
  · split at h
    · simp at h
    · split at h
      · simp at h
      · split at h
        · simp at h
        · rename_i pid hpid
          simp only [Except.ok.injEq] at h
          subst h
          have hseg : pid = seg := by
            rw [hpid] at hfind
            exact Option.some.inj hfind
          subst hseg
          show pyOr (_extract_address pid) "" = ""
          rw [pyOr_empty_right]
          unfold _extract_address
          rw [get_field_out_of_range pid 11 (by omega)]
          rfl

/-- A message whose PID segment has only 4 fields (fewer than 12). -/
def c3Message : String := "MSH|1" ++ "\r" ++ "PID|1||123"

/-- The record `parse_adt_a01` produces for `c3Message`. -/
def c3Parsed : ParsedAdmission :=
  { patient_id := "123"
    family_name := "Unknown"
    given_name := "Unknown"
    dob := ""
    gender := ""
    address := ""
    phone := ""
    admit_datetime := ""
    primary_diagnosis := ""
    message_type := "A01"
    raw_hl7 := c3Message }

/-- C3 witness: the two parts of the claim at concrete inputs — a two-field
segment read at index 5, and a message whose PID segment has 4 fields. -/
theorem claim_C3_witness :
    _get_field (some ["PID", "1"]) 5 = ""
    ∧ c3Parsed.address = "" :=
  ⟨claim_C3_field_access_total.1 ["PID", "1"] 5 (by decide),
   claim_C3_field_access_total.2 c3Message c3Parsed ["PID", "1", "", "123"]
     (by rfl) (by rfl) (by decide)⟩

/-- C5 (amended): admit_datetime comes from PV1-44, else PV1-2 (empty without
a PV1 segment), and is reformatted by the length-driven rule of
`_format_hl7_datetime`: for texts of length ≥ 14 only the 14-character
`YYYYMMDDHHMMSS` parse is attempted (the raw text is kept on failure, with no
date-only fallback); the 8-character `YYYYMMDD` parse applies only to texts
of length 8 to 13; shorter texts are kept unchanged. -/
theorem claim_C5_admit_datetime :
    ∀ (raw : String) (r : ParsedAdmission), parse_adt_a01 raw = Except.ok r →
      r.admit_datetime =
        (let t := pv1AdmitRaw (tokenize (normalizeMessage raw))
        if 14 ≤ pyLen t then
          (if strptimeDateTime14Ok (pySlice t 0 14) = true then isoOfDigits14 (pySlice t 0 14) else t)
        else if 8 ≤ pyLen t then
          (if strptimeDate8Ok (pySlice t 0 8) = true then dateOfDigits8 (pySlice t 0 8) else t)
        else t) := by
  intro raw r h
  unfold parse_adt_a01 at h
  split at h
  · simp at h
  · split at h
    · simp at h
    · split at h
      · simp at h
      · split at h
        · simp at h
        · rename_i pid hpid
          simp only [Except.ok.injEq] at h
          subst h
          have hb : (buildParsed raw (tokenize (normalizeMessage raw)) pid).admit_datetime
              = pyOr (_format_hl7_datetime (pv1AdmitRaw (tokenize (normalizeMessage raw)))) "" := rfl
          rw [hb, format_hl7_datetime_cases]

/-- The admit-datetime formatting rule exactly as claim C5 words it: an
if/elif chain whose date-only branch applies whenever the combined
length-and-parse condition of the 14-character branch fails.  Stated from the
claim text, to exhibit its divergence from the code. -/
def claimC5Format (t : String) : String :=
  if 14 ≤ pyLen t ∧ strptimeDateTime14Ok (pySlice t 0 14) = true then
    isoOfDigits14 (pySlice t 0 14)
  else if 8 ≤ pyLen t ∧ strptimeDate8Ok (pySlice t 0 8) = true then
    dateOfDigits8 (pySlice t 0 8)
  else t

/-- A message whose PV1-2 is a 14-character text failing the datetime parse
while its first 8 characters form a valid date. -/
def c5Message : String := "MSH|1" ++ "\r" ++ "PID|1||123" ++ "\r" ++ "PV1|1|20200101XXXXXX"

/-- The record `parse_adt_a01` produces for `c5Message`. -/
def c5Parsed : ParsedAdmission :=
  { patient_id := "123"
    family_name := "Unknown"
    given_name := "Unknown"
    dob := ""
    gender := ""
    address := ""
    phone := ""
    admit_datetime := "20200101XXXXXX"
    primary_diagnosis := ""
    message_type := "A01"
    raw_hl7 := c5Message }

/-- C5 counterexample: on `c5Message` the parser keeps the raw text
`20200101XXXXXX`, while the claim\x27s if/elif rule demands the date-only
fallback `2020-01-01`. -/
theorem claim_C5_counterexample :
    parse_adt_a01 c5Message = Except.ok c5Parsed
    ∧ c5Parsed.admit_datetime = "20200101XXXXXX"
    ∧ claimC5Format "20200101XXXXXX" = "2020-01-01"
    ∧ ("20200101XXXXXX" : String) ≠ "2020-01-01" :=
  ⟨by rfl, rfl, by rfl, by decide⟩

/-- A message whose PV1-2 is a valid 14-digit timestamp. -/
def c5WitMessage : String := "MSH|1" ++ "\r" ++ "PID|1||9" ++ "\r" ++ "PV1|1|20050110045504"

/-- The record `parse_adt_a01` produces for `c5WitMessage`. -/
def c5WitParsed : ParsedAdmission :=
  { patient_id := "9"
    family_name := "Unknown"
    given_name := "Unknown"
    dob := ""
    gender := ""
    address := ""
    phone := ""
    admit_datetime := "2005-01-10T04:55:04"
    primary_diagnosis := ""
    message_type := "A01"
    raw_hl7 := c5WitMessage }

/-- C5 witness: the amended formatting rule evaluated at `c5WitMessage`. -/
theorem claim_C5_witness :
    c5WitParsed.admit_datetime =
      (let t := pv1AdmitRaw (tokenize (normalizeMessage c5WitMessage))
      if 14 ≤ pyLen t then
        (if strptimeDateTime14Ok (pySlice t 0 14) = true then isoOfDigits14 (pySlice t 0 14) else t)
      else if 8 ≤ pyLen t then
        (if strptimeDate8Ok (pySlice t 0 8) = true then dateOfDigits8 (pySlice t 0 8) else t)
      else t) :=
  claim_C5_admit_datetime c5WitMessage c5WitParsed (by rfl)

/-! Lemmas about the string primitives, leading to the failure
characterization of the parser (claim C2): a non-whitespace character of the
input survives normalization, so the tokenized message is never empty. -/

/-- `splitChar` never returns an empty part list. -/
theorem splitChar_ne_nil (sep : Char) (l : List Char) : splitChar sep l ≠ [] := by
  induction l with
  | nil => simp [splitChar]
  | cons c rest ih =>
    simp only [splitChar]
    split
    · simp
    · split
      · simp
      · simp

/-- Every non-separator character of the input appears in some part of the split. -/
theorem exists_mem_splitChar (sep : Char) (l : List Char) (x : Char)
    (hx : x ∈ l) (hne : x ≠ sep) : ∃ p ∈ splitChar sep l, x ∈ p := by
  induction l with
  | nil => simp at hx
  | cons c rest ih =>
    simp only [splitChar]
    by_cases hc : c = sep
    · rw [if_pos hc]
      rcases List.mem_cons.mp hx with rfl | hxr
      · exact absurd hc hne
      · obtain ⟨p, hp, hxp⟩ := ih hxr
        exact ⟨p, List.mem_cons_of_mem _ hp, hxp⟩
    · rw [if_neg hc]
      rcases List.mem_cons.mp hx with rfl | hxr
      · cases hsp : splitChar sep rest with
        | nil => exact absurd hsp (splitChar_ne_nil sep rest)
        | cons p ps => exact ⟨x :: p, List.mem_cons_self _ _, List.mem_cons_self _ _⟩
      · obtain ⟨p, hp, hxp⟩ := ih hxr
        cases hsp : splitChar sep rest with
        | nil => rw [hsp] at hp; simp at hp
        | cons q qs =>
          rw [hsp] at hp
          rcases List.mem_cons.mp hp with rfl | hpq
          · exact ⟨c :: p, List.mem_cons_self _ _, List.mem_cons_of_mem _ hxp⟩
          · exact ⟨p, List.mem_cons_of_mem _ hpq, hxp⟩

/-- An element failing the predicate is kept by `dropWhile`. -/
theorem mem_dropWhile_of_mem (p : Char → Bool) (l : List Char) (x : Char)
    (hx : x ∈ l) (hpx : p x = false) : x ∈ l.dropWhile p := by
  induction l with
  | nil => simp at hx
  | cons c rest ih =>
    rcases List.mem_cons.mp hx with rfl | hxr
    · rw [List.dropWhile_cons, hpx]
      exact List.mem_cons_self _ _
    · rw [List.dropWhile_cons]
      split
      · exact ih hxr
      · exact List.mem_cons_of_mem _ hxr

/-- `dropWhile` only removes elements, so membership transfers back. -/
theorem mem_of_mem_dropWhile (p : Char → Bool) (l : List Char) (x : Char)
    (hx : x ∈ l.dropWhile p) : x ∈ l := by
  induction l with
  | nil => simp [List.dropWhile] at hx
  | cons c rest ih =>
    rw [List.dropWhile_cons] at hx
    split at hx
    · exact List.mem_cons_of_mem _ (ih hx)
    · exact hx

/-- The first element surviving `dropWhile` fails the predicate. -/
theorem dropWhile_head_false (p : Char → Bool) (l : List Char) (c : Char)
    (t : List Char) (h : l.dropWhile p = c :: t) : p c = false := by
  induction l with
  | nil => simp [List.dropWhile] at h
  | cons d rest ih =>
    rw [List.dropWhile_cons] at h
    split at h
    · exact ih h
    · cases h
      rename_i hd
      simpa using hd

/-- A non-whitespace character survives `pyStripList`. -/
theorem mem_pyStripList (l : List Char) (x : Char) (hx : x ∈ l)
    (hws : wsChar x = false) : x ∈ pyStripList l := by
  unfold pyStripList
  rw [List.mem_reverse]
  exact mem_dropWhile_of_mem _ _ _
    (by rw [List.mem_reverse]; exact mem_dropWhile_of_mem _ _ _ hx hws) hws

/-- A non-empty strip result exhibits a non-whitespace character of the input. -/
theorem exists_nonws_of_pyStripList_ne_nil (l : List Char)
    (h : pyStripList l ≠ []) : ∃ x ∈ l, wsChar x = false := by
  unfold pyStripList at h
  cases hin : (l.dropWhile wsChar).reverse.dropWhile wsChar with
  | nil => rw [hin] at h; simp at h
  | cons c t =>
    refine ⟨c, ?_, dropWhile_head_false wsChar _ c t hin⟩
    have hc : c ∈ (l.dropWhile wsChar).reverse.dropWhile wsChar := by
      rw [hin]; exact List.mem_cons_self _ _
    have hc2 : c ∈ l.dropWhile wsChar := by
      rw [← List.mem_reverse]
      exact mem_of_mem_dropWhile _ _ _ hc
    exact mem_of_mem_dropWhile _ _ _ hc2

/-- `replaceCRLFwithCR` preserves the presence of a non-whitespace character
(it only rewrites CR LF pairs, which are whitespace, into CR). -/
theorem exists_nonws_replaceCRLF (l : List Char)
    (h : ∃ x ∈ l, wsChar x = false) : ∃ x ∈ replaceCRLFwithCR l, wsChar x = false := by
  induction l using replaceCRLFwithCR.induct with
  | case1 =>
    simp at h
  | case2 c =>
    simpa [replaceCRLFwithCR] using h
  | case3 c1 c2 rest hcc ih =>
    obtain ⟨x, hx, hws⟩ := h
    simp only [replaceCRLFwithCR, if_pos hcc]
    rcases List.mem_cons.mp hx with rfl | hx2
    · exact absurd hws (by rw [hcc.1]; decide)
    · rcases List.mem_cons.mp hx2 with rfl | hx3
      · exact absurd hws (by rw [hcc.2]; decide)
      · obtain ⟨y, hy, hyws⟩ := ih ⟨x, hx3, hws⟩
        exact ⟨y, List.mem_cons_of_mem _ hy, hyws⟩
  | case4 c1 c2 rest hcc ih =>
    obtain ⟨x, hx, hws⟩ := h
    simp only [replaceCRLFwithCR, if_neg hcc]
    rcases List.mem_cons.mp hx with rfl | hx2
    · exact ⟨x, List.mem_cons_self _ _, hws⟩
    · obtain ⟨y, hy, hyws⟩ := ih ⟨x, hx2, hws⟩
      exact ⟨y, List.mem_cons_of_mem _ hy, hyws⟩

/-- `replaceChar '\n' '\r'` preserves the presence of a non-whitespace
character (a non-whitespace character is not LF, hence maps to itself). -/
theorem exists_nonws_replaceChar (l : List Char)
    (h : ∃ x ∈ l, wsChar x = false) :
    ∃ x ∈ replaceChar '\n' '\r' l, wsChar x = false := by
  obtain ⟨x, hx, hws⟩ := h
  refine ⟨x, ?_, hws⟩
  unfold replaceChar
  have hxn : x ≠ '\n' := by
    intro hcon
    rw [hcon] at hws
    simp [wsChar] at hws
  have : (if x = '\n' then '\r' else x) = x := if_neg hxn
  exact this ▸ List.mem_map_of_mem _ hx

/-- A message containing a non-whitespace character tokenizes to at least one
segment (the character is not CR, so its line is non-empty and survives the
empty-line filter). -/
theorem tokenize_ne_nil (msg : String)
    (h : ∃ x ∈ msg.data, wsChar x = false) : tokenize msg ≠ [] := by
  obtain ⟨x, hx, hws⟩ := h
  have hxr : x ≠ '\r' := by
    intro hcon
    rw [hcon] at hws
    simp [wsChar] at hws
  obtain ⟨p, hp, hxp⟩ := exists_mem_splitChar '\r' msg.data x hx hxr
  unfold tokenize
  intro hcon
  rw [List.map_eq_nil_iff] at hcon
  have hpf : p ∈ (splitChar '\r' msg.data).filter (fun l => !l.isEmpty) :=
    List.mem_filter_of_mem hp (by simp [List.ne_nil_of_mem hxp])
  rw [hcon] at hpf
  simp at hpf

/-- A non-whitespace input character survives the whole normalization. -/
theorem exists_nonws_normalize (raw : String) (h : pyStrip raw ≠ "") :
    ∃ x ∈ (normalizeMessage raw).data, wsChar x = false := by
  have h0 : pyStripList raw.data ≠ [] := by
    intro hcon
    apply h
    unfold pyStrip
    rw [hcon]
  obtain ⟨x, hx, hws⟩ := exists_nonws_of_pyStripList_ne_nil raw.data h0
  have h1 := exists_nonws_replaceCRLF raw.data ⟨x, hx, hws⟩
  have h2 := exists_nonws_replaceChar _ h1
  obtain ⟨y, hy, hyws⟩ := h2
  exact ⟨y, mem_pyStripList _ y hy hyws, hyws⟩

/-- C2: the parser fails exactly on empty or whitespace-only input, or when
the (normalized, tokenized) message contains no MSH segment, or no PID
segment; in particular a message with MSH and PID but without PV1 or DG1
parses successfully. -/
theorem claim_C2_parse_failure_iff :
    ∀ raw : String,
      (parse_adt_a01 raw).isOk = false ↔
        (pyStrip raw = ""
          ∨ _find_segment (tokenize (normalizeMessage raw)) "MSH" = none
          ∨ _find_segment (tokenize (normalizeMessage raw)) "PID" = none) := by
  intro raw
  unfold parse_adt_a01
  split
  · rename_i hempty
    have hstrip : pyStrip raw = "" := by
      rcases hempty with rfl | hs
      · rfl
      · exact hs
    simp [Except.isOk, Except.toBool, hstrip]
  · rename_i hnonempty
    have hstrip : pyStrip raw ≠ "" := fun hc => hnonempty (Or.inr hc)
    split
    · rename_i hnil
      exact absurd hnil (tokenize_ne_nil _ (exists_nonws_normalize raw hstrip))
    · split
      · rename_i hmsh
        simp [Except.isOk, Except.toBool, hmsh, hstrip]
      · rename_i msh hmsh
        split
        · rename_i hpid
          simp [Except.isOk, Except.toBool, hmsh, hpid, hstrip]
        · rename_i pid hpid
          simp [Except.isOk, Except.toBool, hmsh, hpid, hstrip]

/-! Claims C6, C7 and C10 about the admit transform. -/

/-- C6: within one transform invocation the three timestamp fields are
identical — the single captured clock instant (`workflow_ts` in the source,
the `now` parameter here) is reused for all of them. -/
theorem claim_C6_single_timestamp :
    ∀ (env : String → Option String) (now : String) (d : String → Option PyVal)
      (out : String → Option PyVal),
      process_admit_logic env now d = Except.ok out →
        out "soc_roc_completion_timestamp" = out "workflow_closed_timestamp"
        ∧ out "workflow_closed_timestamp" = out "admit_event_timestamp"
        ∧ out "admit_event_timestamp" = some (PyVal.str now) := by
  intro env now d out h
  unfold process_admit_logic at h
  split at h
  · simp only [Except.ok.injEq] at h
    subst h
    exact ⟨rfl, rfl, rfl⟩
  · simp at h

/-- A minimal admission dict carrying only a patient identifier. -/
def c6dict : String → Option PyVal := fun k =>
  if k = "patient_id" then some (PyVal.str "1") else none

/-- C6 witness: equal timestamps at a concrete environment, instant and dict. -/
theorem claim_C6_witness :
    admitUpdate noEnv sampleNow c6dict "soc_roc_completion_timestamp"
        = admitUpdate noEnv sampleNow c6dict "workflow_closed_timestamp"
    ∧ admitUpdate noEnv sampleNow c6dict "workflow_closed_timestamp"
        = admitUpdate noEnv sampleNow c6dict "admit_event_timestamp"
    ∧ admitUpdate noEnv sampleNow c6dict "admit_event_timestamp"
        = some (PyVal.str sampleNow) :=
  claim_C6_single_timestamp noEnv sampleNow c6dict
    (admitUpdate noEnv sampleNow c6dict) (by rfl)

/-- The thirteen workflow keys the transform sets (all other keys pass through). -/
def admitWorkflowKeys : List String :=
  ["episode_status", "episode_previous_status", "hospice_eob_event",
   "hospice_eob_stage", "hospice_eob_workflow_verified", "soc_roc_type",
   "soc_roc_completed", "soc_roc_completion_timestamp", "eob_closed_workflow",
   "workflow_closed_timestamp", "admit_event_timestamp", "admission_status",
   "acuity_level"]

/-- At a key outside the workflow-key set the transform output is the input value. -/
theorem admitUpdate_not_workflow (env : String → Option String) (now : String)
    (d : String → Option PyVal) (k : String) (hk : k ∉ admitWorkflowKeys) :
    admitUpdate env now d k = d k := by
  simp only [admitWorkflowKeys, List.mem_cons, List.not_mem_nil, or_false, not_or] at hk
  obtain ⟨h1, h2, h3, h4, h5, h6, h7, h8, h9, h10, h11, h12, h13⟩ := hk
  simp only [admitUpdate]
  rw [if_neg h1, if_neg h2, if_neg h3, if_neg h4, if_neg h5, if_neg h6, if_neg h7,
      if_neg h8, if_neg h9, if_neg h10, if_neg h11, if_neg h12, if_neg h13]

/-- At a workflow key the transform output is always populated. -/
theorem admitUpdate_workflow_isSome (env : String → Option String) (now : String)
    (d : String → Option PyVal) (k : String) (hk : k ∈ admitWorkflowKeys) :
    (admitUpdate env now d k).isSome = true := by
  simp only [admitWorkflowKeys, List.mem_cons, List.not_mem_nil, or_false] at hk
  rcases hk with rfl | rfl | rfl | rfl | rfl | rfl | rfl | rfl | rfl | rfl | rfl | rfl | rfl
  all_goals rfl

/-- C7: the transform is a frame-preserving augmentation — every input key is
present in the output, and every key outside the fixed workflow-key set maps
to its input value unchanged. -/
theorem claim_C7_frame_preservation :
    ∀ (env : String → Option String) (now : String) (d : String → Option PyVal)
      (out : String → Option PyVal),
      process_admit_logic env now d = Except.ok out →
        (∀ k, (d k).isSome = true → (out k).isSome = true)
        ∧ (∀ k, k ∉ admitWorkflowKeys → out k = d k) := by
  intro env now d out h
  unfold process_admit_logic at h
  split at h
  · simp only [Except.ok.injEq] at h
    subst h
    constructor
    · intro k hk
      by_cases hmem : k ∈ admitWorkflowKeys
      · exact admitUpdate_workflow_isSome env now d k hmem
      · rw [admitUpdate_not_workflow env now d k hmem]
        exact hk
    · intro k hk
      exact admitUpdate_not_workflow env now d k hk
  · simp at h

/-- A dict with an identifier and one extra non-workflow key. -/
def c7dict : String → Option PyVal := fun k =>
  if k = "patient_id" then some (PyVal.str "1")
  else if k = "extra_key" then some (PyVal.str "v") else none

/-- C7 witness: at a concrete dict, the extra key survives unchanged and is
still present in the output. -/
theorem claim_C7_witness :
    ((c7dict "extra_key").isSome = true →
      ((admitUpdate noEnv sampleNow c7dict) "extra_key").isSome = true)
    ∧ admitUpdate noEnv sampleNow c7dict "extra_key" = c7dict "extra_key" :=
  ⟨(claim_C7_frame_preservation noEnv sampleNow c7dict
      (admitUpdate noEnv sampleNow c7dict) (by rfl)).1 "extra_key",
   (claim_C7_frame_preservation noEnv sampleNow c7dict
      (admitUpdate noEnv sampleNow c7dict) (by rfl)).2 "extra_key" (by decide)⟩

/-- C10: on any record produced by a successful parse the transform never
takes its missing-identifier error branch, because the parser substitutes the
non-empty literal UNKNOWN for an empty patient id; the transform always
returns its success dict. -/
theorem claim_C10_identifier_check_unreachable :
    ∀ (raw : String) (r : ParsedAdmission) (env : String → Option String) (now : String),
      parse_adt_a01 raw = Except.ok r →
        process_admit_logic env now r.toDict = Except.ok (admitUpdate env now r.toDict) := by
  intro raw r env now h
  have hpid : r.patient_id ≠ "" := by
    unfold parse_adt_a01 at h
    split at h
    · simp at h
    · split at h
      · simp at h
      · split at h
        · simp at h
        · split at h
          · simp at h
          · rename_i pid hfind
            simp only [Except.ok.injEq] at h
            subst h
            have hb : (buildParsed raw (tokenize (normalizeMessage raw)) pid).patient_id
                = pyOr (_extract_patient_id pid) "UNKNOWN" := rfl
            rw [hb]
            exact pyOr_ne_empty _ _ (by decide)
  unfold process_admit_logic
  rw [if_pos]
  unfold identifierTruthy
  have h1 : r.toDict "mrn" = none := rfl
  have h2 : r.toDict "patient_id" = some (PyVal.str r.patient_id) := rfl
  rw [h1, h2]
  simp [truthyO, PyVal.truthy, bne_iff_ne, hpid]

/-- C10 witness: the transform succeeds on the parse result of a concrete
message. -/
theorem claim_C10_witness :
    process_admit_logic noEnv sampleNow c3Parsed.toDict
      = Except.ok (admitUpdate noEnv sampleNow c3Parsed.toDict) :=
  claim_C10_identifier_check_unreachable c3Message c3Parsed noEnv sampleNow (by rfl)

/-! Claim C8 about the FHIR converter. -/

/-- C8 (amended): the converter always emits exactly one identifier with the
fixed system URL and one name entry; the literal UNKNOWN (resp. Unknown)
substitutes for `patient_id` (resp. `family_name`) exactly when the key is
absent from the admission dict — a present but empty value is emitted as the
empty string, not as the literal. -/
theorem claim_C8_identifier_and_name :
    ∀ (d : String → Option PyVal) (p : FhirPatient),
      convert_to_fhir_patient d = Except.ok p →
        p.identifier = [{ system := mrnSystemUrl
                          value := (d "patient_id").getD (PyVal.str "UNKNOWN") }]
        ∧ p.name.map FhirHumanName.family = [(d "family_name").getD (PyVal.str "Unknown")] := by
  intro d p h
  unfold convert_to_fhir_patient at h
  split at h
  · split at h
    · simp only [Except.ok.injEq] at h
      subst h
      exact ⟨rfl, rfl⟩
    · split at h
      · simp at h
      · simp only [Except.ok.injEq] at h
        subst h
        exact ⟨rfl, rfl⟩
  · simp at h

/-- An admission dict whose `patient_id` and `family_name` are present but empty. -/
def c8dict : String → Option PyVal := fun k =>
  if k = "patient_id" then some (PyVal.str "")
  else if k = "family_name" then some (PyVal.str "") else none

/-- The patient `convert_to_fhir_patient` produces for `c8dict`. -/
def c8patient : FhirPatient :=
  { identifier := [{ system := mrnSystemUrl, value := PyVal.str "" }]
    name := [{ family := PyVal.str "", given := [PyVal.str "Unknown"], useCode := "official" }]
    gender := "unknown"
    birthDate := none
    address := none
    telecom := none
    active := true
    extension :=
      [{ url := "http://hospice.example.org/StructureDefinition/episode-status"
         value := some (PyVal.str "CURRENT") },
       { url := "http://hospice.example.org/StructureDefinition/soc-roc-completed"
         value := some (PyVal.bool false) },
       { url := "http://hospice.example.org/StructureDefinition/eob-workflow-closed"
         value := some (PyVal.bool false) },
       { url := "http://hospice.example.org/StructureDefinition/admit-timestamp"
         value := none }] }

/-- C8 counterexample: with `patient_id` and `family_name` present but empty,
the converter emits the empty string, not the literals UNKNOWN and Unknown
the claim demands for empty values. -/
theorem claim_C8_counterexample :
    convert_to_fhir_patient c8dict = Except.ok c8patient
    ∧ c8patient.identifier.map FhirIdentifier.value = [PyVal.str ""]
    ∧ PyVal.str "" ≠ PyVal.str "UNKNOWN"
    ∧ c8patient.name.map FhirHumanName.family = [PyVal.str ""]
    ∧ PyVal.str "" ≠ PyVal.str "Unknown" :=
  ⟨by rfl, rfl, by decide, rfl, by decide⟩

/-- The empty admission dict. -/
def c8WitDict : String → Option PyVal := fun _ => none

/-- The patient `convert_to_fhir_patient` produces for the empty dict. -/
def c8WitPatient : FhirPatient :=
  { identifier := [{ system := mrnSystemUrl, value := PyVal.str "UNKNOWN" }]
    name := [{ family := PyVal.str "Unknown", given := [PyVal.str "Unknown"], useCode := "official" }]
    gender := "unknown"
    birthDate := none
    address := none
    telecom := none
    active := true
    extension :=
      [{ url := "http://hospice.example.org/StructureDefinition/episode-status"
         value := some (PyVal.str "CURRENT") },
       { url := "http://hospice.example.org/StructureDefinition/soc-roc-completed"
         value := some (PyVal.bool false) },
       { url := "http://hospice.example.org/StructureDefinition/eob-workflow-closed"
         value := some (PyVal.bool false) },
       { url := "http://hospice.example.org/StructureDefinition/admit-timestamp"
         value := none }] }

/-- C8 witness: on the empty dict the amended rule yields the literals. -/
theorem claim_C8_witness :
    c8WitPatient.identifier
      = [{ system := mrnSystemUrl
           value := (c8WitDict "patient_id").getD (PyVal.str "UNKNOWN") }]
    ∧ c8WitPatient.name.map FhirHumanName.family
      = [(c8WitDict "family_name").getD (PyVal.str "Unknown")] :=
  claim_C8_identifier_and_name c8WitDict c8WitPatient (by rfl)

/-! Claim C9 about the delivery gateway. -/

/-- C9 (amended): the gateway raises exactly when FHIR-Patient validation
fails; on every validated input it returns one of the tri-state outcomes, and
a disabled gateway yields the skipped outcome with zero attempts. -/
theorem claim_C9_gateway_outcomes :
    ∀ (env : String → Option String) (j : JVal),
      ((airbyte_send_fhir_patient env j).isOk = (_validate_fhir_patient_resource j).isOk)
      ∧ (∀ out : AirbyteOutcome, airbyte_send_fhir_patient env j = Except.ok out →
          (out.status = "success" ∨ out.status = "failed" ∨ out.status = "skipped")
          ∧ (_env_bool env "AIRBYTE_ENABLED" true = false →
              out.status = "skipped" ∧ out.attempts = 0)) := by
  intro env j
  cases hv : _validate_fhir_patient_resource j with
  | error e =>
    have hsend : airbyte_send_fhir_patient env j = Except.error e := by
      simp only [airbyte_send_fhir_patient, hv]
    constructor
    · rw [hsend]
      rfl
    · intro out hout
      rw [hsend] at hout
      simp at hout
  | ok kvs =>
    by_cases he : _env_bool env "AIRBYTE_ENABLED" true = false
    · have hsend : airbyte_send_fhir_patient env j
          = Except.ok { status := "skipped", mrn := _extract_mrn kvs,
                        stream := airbyteStream env, attempts := 0, errorText := none } := by
        simp only [airbyte_send_fhir_patient, hv]
        rw [if_pos he]
      constructor
      · rw [hsend]
        rfl
      · intro out hout
        rw [hsend] at hout
        simp only [Except.ok.injEq] at hout
        subst hout
        exact ⟨Or.inr (Or.inr rfl), fun _ => ⟨rfl, rfl⟩⟩
    · have hsend : airbyte_send_fhir_patient env j
          = Except.ok { status := "success", mrn := _extract_mrn kvs,
                        stream := airbyteStream env, attempts := 1, errorText := none } := by
        simp only [airbyte_send_fhir_patient, hv]
        rw [if_neg he]
      constructor
      · rw [hsend]
        rfl
      · intro out hout
        rw [hsend] at hout
        simp only [Except.ok.injEq] at hout
        subst hout
        exact ⟨Or.inl rfl, fun hc => absurd hc he⟩

/-- An environment disabling the gateway. -/
def c9Env : String → Option String := fun k =>
  if k = "AIRBYTE_ENABLED" then some "false" else none

/-- A minimal valid FHIR Patient dict. -/
def c9Patient : JVal :=
  JVal.obj [("resourceType", JVal.str "Patient"),
            ("identifier", JVal.arr [JVal.obj [("value", JVal.str "123")]])]

/-- The outcome of the disabled gateway on `c9Patient`. -/
def c9Out : AirbyteOutcome :=
  { status := "skipped", mrn := "123", stream := "fhir_patients", attempts := 0, errorText := none }

/-- C9 witness: the disabled gateway on a concrete valid patient returns the
skipped outcome with zero attempts. -/
theorem claim_C9_witness :
    ((airbyte_send_fhir_patient c9Env c9Patient).isOk
        = (_validate_fhir_patient_resource c9Patient).isOk)
    ∧ ((c9Out.status = "success" ∨ c9Out.status = "failed" ∨ c9Out.status = "skipped")
        ∧ (_env_bool c9Env "AIRBYTE_ENABLED" true = false →
            c9Out.status = "skipped" ∧ c9Out.attempts = 0)) :=
  ⟨(claim_C9_gateway_outcomes c9Env c9Patient).1,
   (claim_C9_gateway_outcomes c9Env c9Patient).2 c9Out (by rfl)⟩

/-- C9 counterexample: on the empty dict (not a valid FHIR Patient) the
gateway raises a ValueError instead of returning an outcome. -/
theorem claim_C9_counterexample :
    airbyte_send_fhir_patient noEnv (JVal.obj [])
      = Except.error "FHIR Patient resourceType must be Patient" := by rfl

end Hospice
